import Mathlib

/-!
Verification of the cmux workspace session process supervisor.

This file gives a shallow embedding of the two source components under
examination and proves the spec claims about them:

- `apps/www/lib/routes/sandboxes/startDevAndMaintenanceScript.ts`
  (script orchestration: the generated background orchestrator script and the
  `runMaintenanceAndDevScripts` launcher), and
- `apps/worker/src/screenshotCollector/startScreenshotCollection.ts`
  (the VS Code serve-web supervisor: `ensureVSCodeServeWeb`,
  `stopVSCodeServeWeb`, the cached-state accessors and process handlers).

JavaScript-level behaviour that the claims depend on (string trimming,
`Number.parseInt`, string truthiness, `String.prototype.includes`,
`split`/`slice`/`join`) is embedded as executable functions over `List Char`.
Effects (tmux commands, file removal, HTTP posts, process exits, child kills)
are recorded as explicit action traces, and environment nondeterminism
(whether the exit-code file appears, file contents, fetch outcomes) is passed
in as explicit parameters.
-/

/-! ## JavaScript string and number primitives -/

/-- Characters removed by the JavaScript `String.prototype.trim` and skipped
by `Number.parseInt`: the WhiteSpace production (TAB, LF, VT, FF, CR, space,
no-break space U+00A0, BOM U+FEFF, and the Space_Separator code points
U+1680, U+2000..U+200A, U+202F, U+205F, U+3000) together with the
LineTerminator production (LF, CR, and U+2028/U+2029). -/
def jsIsWs (c : Char) : Bool :=
  c == '\x09' || c == '\x0a' || c == '\x0b' || c == '\x0c' || c == '\x0d' ||
  c == ' ' || c == '\u00A0' || c == '\u1680' ||
  c == '\u2000' || c == '\u2001' || c == '\u2002' || c == '\u2003' ||
  c == '\u2004' || c == '\u2005' || c == '\u2006' || c == '\u2007' ||
  c == '\u2008' || c == '\u2009' || c == '\u200A' ||
  c == '\u2028' || c == '\u2029' || c == '\u202F' || c == '\u205F' ||
  c == '\u3000' || c == '\uFEFF'

/-- Model of JavaScript `s.trim()`: drop leading and trailing whitespace. -/
def jsTrim (s : String) : String :=
  ⟨((s.data.dropWhile jsIsWs).reverse.dropWhile jsIsWs).reverse⟩

/-- Truthiness of a JavaScript `string | null | undefined` value:
`null`/`undefined` and the empty string are falsy, all other strings truthy. -/
def jsTruthyStr : Option String → Bool
  | none => false
  | some s => !s.data.isEmpty

/-- Accumulate decimal digits into a natural number. -/
def digitsToNat : Nat → List Char → Nat
  | acc, [] => acc
  | acc, c :: t => digitsToNat (acc * 10 + (c.toNat - 48)) t

/-- Parse a longest leading run of decimal digits; `none` when there is none. -/
def parseNatPart (l : List Char) : Option Nat :=
  if (l.takeWhile Char.isDigit).isEmpty then none
  else some (digitsToNat 0 (l.takeWhile Char.isDigit))

/-- Model of JavaScript `Number.parseInt(s, 10)` restricted to integer results:
skip leading whitespace, allow an optional sign, read leading decimal digits,
ignore the rest; `none` models `NaN`. -/
def jsParseInt (s : String) : Option Int :=
  match s.data.dropWhile jsIsWs with
  | '-' :: rest => (parseNatPart rest).map (fun n => -(n : Int))
  | '+' :: rest => (parseNatPart rest).map (fun n => (n : Int))
  | l => (parseNatPart l).map (fun n => (n : Int))

/-- Check whether the second list is a leading segment of the first. -/
def listStartsWith : List Char → List Char → Bool
  | _, [] => true
  | [], _ :: _ => false
  | a :: as, b :: bs => a == b && listStartsWith as bs

/-- Check whether `needle` occurs contiguously inside the second list. -/
def listContainsSub (needle : List Char) : List Char → Bool
  | [] => listStartsWith [] needle
  | c :: t => listStartsWith (c :: t) needle || listContainsSub needle t

/-- Model of JavaScript `s.includes(sub)`. -/
def jsIncludes (s sub : String) : Bool := listContainsSub sub.data s.data

/-- Model of JavaScript `s.split("\n")` on the character list: the empty
string yields one empty line, matching `"".split("\n")` returning `[""]`. -/
def splitLines : List Char → List (List Char)
  | [] => [[]]
  | c :: t =>
    if c == '\n' then [] :: splitLines t
    else
      match splitLines t with
      | h :: t2 => (c :: h) :: t2
      | [] => [[c]]

/-- Model of `logContent.trim().split("\n").slice(-n).join("\n")`: the last
`n` lines of the trimmed log text. -/
def lastLines (n : Nat) (s : String) : String :=
  ⟨List.intercalate ['\n']
    ((splitLines (jsTrim s).data).drop ((splitLines (jsTrim s).data).length - n))⟩

/-! ## Path constants and identifiers
(`startDevAndMaintenanceScript.ts`, module constants and
`allocateScriptIdentifiers`) -/

def WORKSPACE_ROOT : String := "/root/workspace"

def CMUX_RUNTIME_DIR : String := "/var/tmp/cmux-scripts"

def MAINTENANCE_WINDOW_NAME : String := "maintenance"

def MAINTENANCE_SCRIPT_FILENAME : String := "maintenance.sh"

def DEV_WINDOW_NAME : String := "dev"

def DEV_SCRIPT_FILENAME : String := "dev.sh"

/-- Per-task identifier record (window name and script path). -/
structure ScriptTarget where
  windowName : String
  scriptPath : String
deriving DecidableEq

/-- Mirror of the source `ScriptIdentifiers` type. -/
structure ScriptIdentifiers where
  maintenance : ScriptTarget
  dev : ScriptTarget
deriving DecidableEq

/-- Mirror of `allocateScriptIdentifiers`: note that both script paths are
fixed constants under the runtime directory and do not mention any run id. -/
def allocateScriptIdentifiers : ScriptIdentifiers :=
  { maintenance :=
      { windowName := MAINTENANCE_WINDOW_NAME,
        scriptPath := CMUX_RUNTIME_DIR ++ "/" ++ MAINTENANCE_SCRIPT_FILENAME },
    dev :=
      { windowName := DEV_WINDOW_NAME,
        scriptPath := CMUX_RUNTIME_DIR ++ "/" ++ DEV_SCRIPT_FILENAME } }

/-- Path of the orchestrator script for a run
(`orchestrator_${runId}.ts` under the runtime directory). -/
def orchestratorScriptPath (runId : String) : String :=
  CMUX_RUNTIME_DIR ++ "/orchestrator_" ++ runId ++ ".ts"

/-- Path of the maintenance exit-code file for a run. -/
def maintenanceExitCodePath (runId : String) : String :=
  CMUX_RUNTIME_DIR ++ "/maintenance_" ++ runId ++ ".exit-code"

/-- Path of the maintenance log file for a run. -/
def maintenanceErrorLogPath (runId : String) : String :=
  CMUX_RUNTIME_DIR ++ "/maintenance_" ++ runId ++ ".log"

/-- Path of the dev exit-code file for a run. -/
def devExitCodePath (runId : String) : String :=
  CMUX_RUNTIME_DIR ++ "/dev_" ++ runId ++ ".exit-code"

/-- Path of the dev log file for a run. -/
def devErrorLogPath (runId : String) : String :=
  CMUX_RUNTIME_DIR ++ "/dev_" ++ runId ++ ".log"

/-- Path of the orchestrator background log for a run
(`orchestrator_${runId}.log`, the nohup redirect target). -/
def orchestratorLogPath (runId : String) : String :=
  CMUX_RUNTIME_DIR ++ "/orchestrator_" ++ runId ++ ".log"

/-- Every file path generated for one orchestration run: the two script files
(from `allocateScriptIdentifiers`), the orchestrator script, the exit-code
files, and the log files. -/
def generatedPaths (runId : String) : List String :=
  [allocateScriptIdentifiers.maintenance.scriptPath,
   allocateScriptIdentifiers.dev.scriptPath,
   orchestratorScriptPath runId,
   maintenanceExitCodePath runId,
   maintenanceErrorLogPath runId,
   devExitCodePath runId,
   devErrorLogPath runId,
   orchestratorLogPath runId]

/-- The generated paths that actually embed the run id: the orchestrator
script, the exit-code files and the log files. -/
def runScopedPaths (runId : String) : List String :=
  [orchestratorScriptPath runId,
   maintenanceExitCodePath runId,
   maintenanceErrorLogPath runId,
   devExitCodePath runId,
   devErrorLogPath runId,
   orchestratorLogPath runId]

/-! ## The generated orchestrator script
(`buildOrchestratorScript`: `runMaintenanceScript`, `startDevScript`,
`reportErrorToConvex`, `createWindows` and the main IIFE) -/

/-- Configuration constants injected into the generated orchestrator script,
mirroring `OrchestratorScriptConfig`. -/
structure OrchestratorScriptConfig where
  workspaceRoot : String
  runtimeDir : String
  maintenanceScriptPath : String
  devScriptPath : String
  maintenanceWindowName : String
  devWindowName : String
  maintenanceExitCodePath : String
  maintenanceErrorLogPath : String
  devExitCodePath : String
  devErrorLogPath : String
  hasMaintenanceScript : Bool
  hasDevScript : Bool
  convexUrl : String
  taskRunJwt : String

/-- Outcome of reading an error-log file: missing, readable with the given
content, or failing with a thrown read error. -/
inductive LogRead where
  | absent
  | content (text : String)
  | readFails
deriving DecidableEq

/-- Environment nondeterminism for the maintenance stage: whether the tmux
injection throws, at which poll attempts the exit-code file exists, the
exit-code file content, and the state of the error log. -/
structure MaintEnv where
  sendKeysThrows : Option String
  existsAt : Nat → Bool
  exitFileContent : String
  log : LogRead

/-- Environment nondeterminism for the dev stage: whether the tmux injection
(or window listing) throws, whether the dev window is listed after the settle
delay, whether an exit-code file is present at the one-shot early-exit check,
its content, and the state of the error log. -/
structure DevEnv where
  sendKeysThrows : Option String
  windowListed : Bool
  earlyExitFilePresent : Bool
  exitFileContent : String
  log : LogRead

/-- Outcome of the control-plane `fetch` call: a 2xx response, a non-2xx
response, or a thrown network error.  The orchestrator only logs all three. -/
inductive FetchOutcome where
  | ok (status : Nat)
  | httpError (status : Nat)
  | networkError
deriving DecidableEq

/-- Observable effects of the generated orchestrator script.  `killRemote` is
in the vocabulary so that the absence of any kill of the remote script is a
meaningful statement; the generated script never emits it. -/
inductive OrchAction where
  | newWindow (window : String)
  | sendKeys (window : String)
  | rmFile (path : String)
  | killRemote
  | httpPost (url : String) (authorization : String) (body : List (String × String))
  | processExit (code : Int)
deriving DecidableEq

/-- Result record of the maintenance stage, mirroring
`{ exitCode: number; error: string | null }`. -/
structure MaintResult where
  exitCode : Int
  error : Option String
deriving DecidableEq

/-- The exit-code-file poll loop of `runMaintenanceScript`:
`while (attempts < maxAttempts) { if (file exists) break; sleep; attempts++ }`.
Returns the final value of `attempts`; `fuel` is the number of remaining
iterations, initially 600 (1-second polls for 10 minutes). -/
def pollFrom (existsAt : Nat → Bool) : Nat → Nat → Nat
  | attempts, 0 => attempts
  | attempts, fuel + 1 =>
    if existsAt attempts then attempts else pollFrom existsAt (attempts + 1) fuel

/-- The `errorDetails` computed from the error log on a non-zero exit: the
last 100 lines of the trimmed log content when the log file exists and is
readable, otherwise the empty string (a read failure is caught and only
logged). -/
def logTailDetails : LogRead → String
  | LogRead.content text => lastLines 100 text
  | _ => ""

/-- The `errorMessage` for a failed maintenance script:
`errorDetails || "Maintenance script failed with exit code " + exitCode`
(the empty string is falsy). -/
def maintFailureMessage (exitCode : Int) (log : LogRead) : String :=
  if (logTailDetails log).data.isEmpty then
    "Maintenance script failed with exit code " ++ toString exitCode
  else logTailDetails log

/-- The `errorMessage` for an early-exited dev script. -/
def devFailureMessage (exitCode : Int) (log : LogRead) : String :=
  if (logTailDetails log).data.isEmpty then
    "Dev script failed with exit code " ++ toString exitCode
  else logTailDetails log

/-- Model of the generated `runMaintenanceScript`: skip when no maintenance
script exists; inject the script via tmux send-keys; poll up to 600 attempts
for the exit-code file; on timeout return exit code 124 with the timeout
error and no further action; on appearance read and trim the content, remove
the exit-code file, parse the content as a base-10 integer, and map `NaN` to
a failed result, zero to `ok`, and non-zero to a failed result carrying the
log tail (or a generic message). -/
def runMaintenanceScript (cfg : OrchestratorScriptConfig) (m : MaintEnv) :
    MaintResult × List OrchAction :=
  if !cfg.hasMaintenanceScript then ({ exitCode := 0, error := none }, [])
  else
    match m.sendKeysThrows with
    | some message =>
      ({ exitCode := 1,
         error := some (("Maintenance script execution failed: ") ++ message) }, [])
    | none =>
      if pollFrom m.existsAt 0 600 ≥ 600 then
        ({ exitCode := 124,
           error := some ("Maintenance script timed out after 10 minutes") },
         [OrchAction.sendKeys cfg.maintenanceWindowName])
      else
        match jsParseInt (jsTrim m.exitFileContent) with
        | none =>
          ({ exitCode := 1,
             error := some ("Maintenance script exit code missing or invalid") },
           [OrchAction.sendKeys cfg.maintenanceWindowName,
            OrchAction.rmFile cfg.maintenanceExitCodePath])
        | some exitCode =>
          if exitCode ≠ 0 then
            ({ exitCode := exitCode,
               error := some (maintFailureMessage exitCode m.log) },
             [OrchAction.sendKeys cfg.maintenanceWindowName,
              OrchAction.rmFile cfg.maintenanceExitCodePath])
          else
            ({ exitCode := 0, error := none },
             [OrchAction.sendKeys cfg.maintenanceWindowName,
              OrchAction.rmFile cfg.maintenanceExitCodePath])

/-- Model of the generated `startDevScript`: skip when no dev script exists;
inject the script; fail if the dev window is no longer listed; perform the
one-shot early-exit check on the dev exit-code file; otherwise report the
script as started (`error = null`). -/
def startDevScript (cfg : OrchestratorScriptConfig) (d : DevEnv) :
    Option String × List OrchAction :=
  if !cfg.hasDevScript then (none, [])
  else
    match d.sendKeysThrows with
    | some message => (some (("Dev script execution failed: ") ++ message), [])
    | none =>
      if !d.windowListed then
        (some ("Dev window not found after starting script"),
         [OrchAction.sendKeys cfg.devWindowName])
      else if d.earlyExitFilePresent then
        match jsParseInt (jsTrim d.exitFileContent) with
        | none =>
          (some ("Dev script exit code missing or invalid"),
           [OrchAction.sendKeys cfg.devWindowName,
            OrchAction.rmFile cfg.devExitCodePath])
        | some exitCode =>
          if exitCode ≠ 0 then
            (some (devFailureMessage exitCode d.log),
             [OrchAction.sendKeys cfg.devWindowName,
              OrchAction.rmFile cfg.devExitCodePath])
          else
            (none,
             [OrchAction.sendKeys cfg.devWindowName,
              OrchAction.rmFile cfg.devExitCodePath])
      else (none, [OrchAction.sendKeys cfg.devWindowName])

/-- The JSON body of the control-plane error report: exactly the error fields
that are set (truthy). -/
def reportBody (maintenanceError devError : Option String) :
    List (String × String) :=
  (if jsTruthyStr maintenanceError then
    [(("maintenanceError"), maintenanceError.getD (""))] else [])
    ++ (if jsTruthyStr devError then [(("devError"), devError.getD (""))] else [])

/-- Model of the generated `reportErrorToConvex`: skip when the JWT or the
Convex URL is missing, or when neither error is set; otherwise issue exactly
one bearer-authenticated POST.  The fetch outcome (2xx, non-2xx, or a thrown
network error) is only logged: it does not change the trace, is never
retried, and the function never throws. -/
def reportErrorToConvex (cfg : OrchestratorScriptConfig)
    (maintenanceError devError : Option String) (response : FetchOutcome) :
    List OrchAction :=
  if cfg.taskRunJwt.data.isEmpty || cfg.convexUrl.data.isEmpty then []
  else if !jsTruthyStr maintenanceError && !jsTruthyStr devError then []
  else
    [OrchAction.httpPost (cfg.convexUrl ++ "/http/api/task-runs/report-environment-error")
      (("Bearer ") ++ cfg.taskRunJwt) (reportBody maintenanceError devError)]

/-- Model of the generated `createWindows`: create a tmux window up front for
each task that exists. -/
def createWindows (cfg : OrchestratorScriptConfig) : List OrchAction :=
  (if cfg.hasMaintenanceScript then [OrchAction.newWindow cfg.maintenanceWindowName] else [])
    ++ (if cfg.hasDevScript then [OrchAction.newWindow cfg.devWindowName] else [])

/-- Environment of one orchestrator execution.  `createWindowsFail` models
`waitForTmuxSession`/`createWindows` throwing (missing session or window
creation failure), which the main IIFE catches and converts into exit 1. -/
structure OrchEnv where
  maint : MaintEnv
  dev : DevEnv
  fetch : FetchOutcome
  createWindowsFail : Bool

/-- Model of the orchestrator main IIFE: create windows, run the maintenance
stage, then unconditionally run the dev stage; report to the control plane
only when some stage produced an error; exit 1 on any error, 0 otherwise.  A
setup failure is caught and turns into exit 1 before either stage runs. -/
def orchestratorMain (cfg : OrchestratorScriptConfig) (env : OrchEnv) :
    Int × List OrchAction :=
  if env.createWindowsFail then (1, [OrchAction.processExit 1])
  else
    let m := runMaintenanceScript cfg env.maint
    let d := startDevScript cfg env.dev
    let hasError := jsTruthyStr m.1.error || jsTruthyStr d.1
    let code : Int := if hasError then 1 else 0
    (code,
      createWindows cfg ++
        (m.2 ++
          (d.2 ++
            ((if hasError then reportErrorToConvex cfg m.1.error d.1 env.fetch else []) ++
              [OrchAction.processExit code]))))

/-! ## The launcher (`runMaintenanceAndDevScripts`) -/

/-- Result of `instance.exec` for the setup command, mirroring the fields the
launcher reads. -/
structure ExecResult where
  exit_code : Int
  stdout : Option String
  stderr : Option String
deriving DecidableEq

/-- Behaviour of the remote `instance.exec` call: it returns a result or
throws. -/
inductive ExecBehavior where
  | result (r : ExecResult)
  | throwsMsg (message : String)

/-- The single remote effect of the launcher: one `zsh -lc` invocation that
writes the script files and starts the orchestrator in the background for the
given run id.  No other effect leaves the launcher. -/
inductive LaunchAction where
  | execRemote (runId : String)
deriving DecidableEq

/-- The stdout confirmation marker checked by the launcher. -/
def orchestratorStartMarker : String :=
  "[ORCHESTRATOR] Started successfully in background (PID:"

/-- A script argument that is absent, empty, or whitespace-only. -/
def isBlankScript (o : Option String) : Bool :=
  (jsTrim (o.getD (""))).data.isEmpty

/-- Model of `runMaintenanceAndDevScripts`: when both script texts are absent
or whitespace-only it returns immediately with no effect at all; otherwise it
issues the one remote setup command and throws when that command exits
non-zero, when its trimmed stdout lacks the confirmation marker, or when the
exec call itself throws.  `Except.error` models the thrown `Error`. -/
def runMaintenanceAndDevScripts (maintenanceScript devScript : Option String)
    (runId : String) (exec : ExecBehavior) :
    Except String Unit × List LaunchAction :=
  if !(jsTruthyStr maintenanceScript && !(jsTrim (maintenanceScript.getD (""))).data.isEmpty)
      && !(jsTruthyStr devScript && !(jsTrim (devScript.getD (""))).data.isEmpty) then
    (Except.ok (), [])
  else
    match exec with
    | ExecBehavior.throwsMsg message =>
      (Except.error message, [LaunchAction.execRemote runId])
    | ExecBehavior.result r =>
      if r.exit_code ≠ 0 then
        (Except.error
          (("Failed to start orchestrator: exit code ") ++ toString r.exit_code ++
            (if (jsTrim (r.stderr.getD (""))).data.isEmpty then ""
             else (" | stderr: ") ++ jsTrim (r.stderr.getD ("")))),
         [LaunchAction.execRemote runId])
      else if !jsIncludes (jsTrim (r.stdout.getD (""))) orchestratorStartMarker then
        (Except.error ("Orchestrator did not confirm successful start"),
         [LaunchAction.execRemote runId])
      else (Except.ok (), [LaunchAction.execRemote runId])

/-! ## The VS Code serve-web supervisor
(`startScreenshotCollection.ts`: cached state, `ensureVSCodeServeWeb`,
`stopVSCodeServeWeb`, exit/error handlers) -/

/-- Default of `LOCAL_VSCODE_HOST` when `CMUX_VSCODE_PUBLIC_HOST` is unset. -/
def LOCAL_VSCODE_HOST : String := "cmux-vscode.local"

/-- The module-level mutable cache
(`currentServeWebBaseUrl` / `currentServeWebSocketPath`). -/
structure ServeWebCache where
  currentServeWebBaseUrl : Option String
  currentServeWebSocketPath : Option String
deriving DecidableEq

/-- Accessor `getVSCodeServeWebBaseUrl` over the cached state. -/
def getVSCodeServeWebBaseUrl (c : ServeWebCache) : Option String :=
  c.currentServeWebBaseUrl

/-- Accessor `getVSCodeServeWebSocketPath` over the cached state. -/
def getVSCodeServeWebSocketPath (c : ServeWebCache) : Option String :=
  c.currentServeWebSocketPath

/-- Snapshot of the spawned child process fields the supervisor reads
(`killed`, `exitCode`, `signalCode`). -/
structure ChildStatus where
  killed : Bool
  exitCode : Option Int
  signalCode : Option String
deriving DecidableEq

/-- Mirror of the source `VSCodeServeWebHandle` (the live process object is
represented by the child status carried in `SupervisorState`). -/
structure VSCodeServeWebHandle where
  executable : String
  socketPath : String
deriving DecidableEq

/-- Observable effects of the serve-web supervisor. -/
inductive SupAction where
  | clearCache
  | unlinkSocket (path : String)
  | spawnChild
  | killChild
  | httpProbe
deriving DecidableEq

/-- State the supervisor acts on: the module cache, whether the socket file
currently exists, and the child process status. -/
structure SupervisorState where
  cache : ServeWebCache
  socketFileExists : Bool
  child : ChildStatus
deriving DecidableEq

/-- Scenario parameters for one `ensureVSCodeServeWeb` call: the resolved
executable (if any), the platform check, the generated socket path, whether
the socket artifact appears within the 15-second deadline, and whether the
child is still alive (`!killed && exitCode === null`) when the launch attempt
fails. -/
structure EnsureEnv where
  executable : Option String
  isWin32 : Bool
  socketPath : String
  socketAppears : Bool
  childAliveAtFailure : Bool

/-- Model of `ensureVSCodeServeWeb`.  Every throw inside the body is caught
by the surrounding try/catch, so the model is a total function: failure is
reported as `none`, never as an exception.  On the failure path the child is
killed when still alive, the partial socket artifact is removed, and the
cached base-URL/socket-path state is left cleared. -/
def ensureVSCodeServeWeb (env : EnsureEnv) (cache : ServeWebCache) :
    Option VSCodeServeWebHandle × ServeWebCache × List SupAction :=
  match env.executable with
  | none => (none, cache, [])
  | some exe =>
    if env.isWin32 then (none, cache, [])
    else if env.socketAppears then
      (some { executable := exe, socketPath := env.socketPath },
       { currentServeWebBaseUrl := some (("http://") ++ LOCAL_VSCODE_HOST),
         currentServeWebSocketPath := some env.socketPath },
       [SupAction.unlinkSocket env.socketPath, SupAction.spawnChild,
        SupAction.httpProbe])
    else
      (none,
       { currentServeWebBaseUrl := none, currentServeWebSocketPath := none },
       [SupAction.unlinkSocket env.socketPath, SupAction.spawnChild] ++
         ((if env.childAliveAtFailure then [SupAction.killChild] else []) ++
           [SupAction.unlinkSocket env.socketPath, SupAction.clearCache]))

/-- Model of `stopVSCodeServeWeb`: return immediately on a null handle;
otherwise clear the cached state first, best-effort remove the socket file
(a missing file is not an error), and signal the child only when it has not
already been killed, exited, or been signalled.  The kill marks the child as
killed.  All errors are caught and logged, so the model is total. -/
def stopVSCodeServeWeb (handle : Option VSCodeServeWebHandle)
    (s : SupervisorState) : SupervisorState × List SupAction :=
  match handle with
  | none => (s, [])
  | some h =>
    if s.child.killed || s.child.exitCode.isSome || s.child.signalCode.isSome then
      ({ s with
          cache := { currentServeWebBaseUrl := none, currentServeWebSocketPath := none },
          socketFileExists := false },
       [SupAction.clearCache, SupAction.unlinkSocket h.socketPath])
    else
      ({ s with
          cache := { currentServeWebBaseUrl := none, currentServeWebSocketPath := none },
          socketFileExists := false,
          child := { s.child with killed := true } },
       [SupAction.clearCache, SupAction.unlinkSocket h.socketPath,
        SupAction.killChild])

/-- Model of the `exit` handler registered on the spawned process: it clears
the cached base URL when one is set (the source guards the assignment with a
truthiness check) and always clears the cached socket path. -/
def serveWebExitHandler (c : ServeWebCache) : ServeWebCache :=
  { currentServeWebBaseUrl :=
      if jsTruthyStr c.currentServeWebBaseUrl then none else c.currentServeWebBaseUrl,
    currentServeWebSocketPath := none }

/-- Model of the `error` handler registered on the spawned process: the
source handler only logs the error and does not touch the cached state. -/
def serveWebErrorHandler (c : ServeWebCache) : ServeWebCache := c

/-! ## Auxiliary definitions for trace properties -/

/-- Recogniser for control-plane POST actions in an orchestrator trace. -/
def isHttpPost : OrchAction → Bool
  | OrchAction.httpPost _ _ _ => true
  | _ => false

/-- Number of control-plane POSTs in an orchestrator trace. -/
def postCount (trace : List OrchAction) : Nat := (trace.filter isHttpPost).length

/-! ## Helper lemmas -/

lemma pollFrom_all_false (existsAt : Nat → Bool) :
    ∀ (fuel attempts : Nat),
      (∀ k, attempts ≤ k → k < attempts + fuel → existsAt k = false) →
      pollFrom existsAt attempts fuel = attempts + fuel := by
  intro fuel
  induction fuel with
  | zero => intro a _; simp [pollFrom]
  | succ n ih =>
    intro a h
    unfold pollFrom
    rw [if_neg (by simp [h a (Nat.le_refl a) (by omega)])]
    have := ih (a + 1) (fun k hk1 hk2 => h k (by omega) (by omega))
    omega

lemma pollFrom_finds (existsAt : Nat → Bool) :
    ∀ (fuel attempts : Nat),
      (∃ k, attempts ≤ k ∧ k < attempts + fuel ∧ existsAt k = true) →
      pollFrom existsAt attempts fuel < attempts + fuel := by
  intro fuel
  induction fuel with
  | zero =>
    rintro a ⟨k, h1, h2, _⟩
    omega
  | succ n ih =>
    rintro a ⟨k, h1, h2, h3⟩
    unfold pollFrom
    by_cases hea : existsAt a = true
    · rw [if_pos hea]
      omega
    · rw [if_neg hea]
      have hak : a ≠ k := by
        intro e
        rw [e] at hea
        exact hea h3
      have := ih (a + 1) ⟨k, by omega, by omega, h3⟩
      omega

lemma runMaintenanceScript_timeout (cfg : OrchestratorScriptConfig) (m : MaintEnv)
    (h1 : cfg.hasMaintenanceScript = true) (h2 : m.sendKeysThrows = none)
    (h3 : 600 ≤ pollFrom m.existsAt 0 600) :
    runMaintenanceScript cfg m =
      ({ exitCode := 124, error := some ("Maintenance script timed out after 10 minutes") },
       [OrchAction.sendKeys cfg.maintenanceWindowName]) := by
  unfold runMaintenanceScript
  rw [h1, h2]
  simp [h3]

lemma runMaintenanceScript_invalid (cfg : OrchestratorScriptConfig) (m : MaintEnv)
    (h1 : cfg.hasMaintenanceScript = true) (h2 : m.sendKeysThrows = none)
    (h3 : pollFrom m.existsAt 0 600 < 600)
    (hp : jsParseInt (jsTrim m.exitFileContent) = none) :
    runMaintenanceScript cfg m =
      ({ exitCode := 1, error := some ("Maintenance script exit code missing or invalid") },
       [OrchAction.sendKeys cfg.maintenanceWindowName,
        OrchAction.rmFile cfg.maintenanceExitCodePath]) := by
  unfold runMaintenanceScript
  rw [h1, h2, hp]
  have hnot : ¬ (600 ≤ pollFrom m.existsAt 0 600) := by omega
  simp [hnot]

lemma runMaintenanceScript_zero (cfg : OrchestratorScriptConfig) (m : MaintEnv)
    (h1 : cfg.hasMaintenanceScript = true) (h2 : m.sendKeysThrows = none)
    (h3 : pollFrom m.existsAt 0 600 < 600)
    (hp : jsParseInt (jsTrim m.exitFileContent) = some 0) :
    runMaintenanceScript cfg m =
      ({ exitCode := 0, error := none },
       [OrchAction.sendKeys cfg.maintenanceWindowName,
        OrchAction.rmFile cfg.maintenanceExitCodePath]) := by
  unfold runMaintenanceScript
  rw [h1, h2, hp]
  have hnot : ¬ (600 ≤ pollFrom m.existsAt 0 600) := by omega
  simp [hnot]

lemma runMaintenanceScript_nonzero (cfg : OrchestratorScriptConfig) (m : MaintEnv)
    (n : Int)
    (h1 : cfg.hasMaintenanceScript = true) (h2 : m.sendKeysThrows = none)
    (h3 : pollFrom m.existsAt 0 600 < 600)
    (hp : jsParseInt (jsTrim m.exitFileContent) = some n) (hn : n ≠ 0) :
    runMaintenanceScript cfg m =
      ({ exitCode := n, error := some (maintFailureMessage n m.log) },
       [OrchAction.sendKeys cfg.maintenanceWindowName,
        OrchAction.rmFile cfg.maintenanceExitCodePath]) := by
  unfold runMaintenanceScript
  rw [h1, h2, hp]
  have hnot : ¬ (600 ≤ pollFrom m.existsAt 0 600) := by omega
  simp [hnot, hn]

lemma maint_trace_shape (cfg : OrchestratorScriptConfig) (m : MaintEnv) :
    ∀ x ∈ (runMaintenanceScript cfg m).2,
      x = OrchAction.sendKeys cfg.maintenanceWindowName ∨
      x = OrchAction.rmFile cfg.maintenanceExitCodePath := by
  intro x hx
  unfold runMaintenanceScript at hx
  split at hx
  · simp at hx
  · split at hx
    · simp at hx
    · split at hx
      · simp at hx
        exact Or.inl hx
      · split at hx
        · simp at hx
          exact hx
        · split at hx <;> simp at hx <;> exact hx

lemma dev_trace_shape (cfg : OrchestratorScriptConfig) (d : DevEnv) :
    ∀ x ∈ (startDevScript cfg d).2,
      x = OrchAction.sendKeys cfg.devWindowName ∨
      x = OrchAction.rmFile cfg.devExitCodePath := by
  intro x hx
  unfold startDevScript at hx
  split at hx
  · simp at hx
  · split at hx
    · simp at hx
    · split at hx
      · simp at hx
        exact Or.inl hx
      · split at hx
        · split at hx
          · simp at hx
            exact hx
          · split at hx <;> simp at hx <;> exact hx
        · simp at hx
          exact Or.inl hx

lemma createWindows_shape (cfg : OrchestratorScriptConfig) :
    ∀ x ∈ createWindows cfg,
      x = OrchAction.newWindow cfg.maintenanceWindowName ∨
      x = OrchAction.newWindow cfg.devWindowName := by
  intro x hx
  unfold createWindows at hx
  rcases List.mem_append.mp hx with h | h <;> split at h <;> simp at h <;>
    [exact Or.inl h; exact Or.inr h]

lemma reportErrorToConvex_cases (cfg : OrchestratorScriptConfig)
    (me de : Option String) (f : FetchOutcome) :
    reportErrorToConvex cfg me de f = [] ∨
      (reportErrorToConvex cfg me de f =
        [OrchAction.httpPost (cfg.convexUrl ++ "/http/api/task-runs/report-environment-error")
          (("Bearer ") ++ cfg.taskRunJwt) (reportBody me de)] ∧
        (jsTruthyStr me = true ∨ jsTruthyStr de = true)) := by
  unfold reportErrorToConvex
  split
  · exact Or.inl rfl
  · split
    · exact Or.inl rfl
    · rename_i hguard
      right
      refine ⟨rfl, ?_⟩
      cases hm : jsTruthyStr me with
      | true => exact Or.inl rfl
      | false =>
        cases hd : jsTruthyStr de with
        | true => exact Or.inr rfl
        | false => exact absurd (by rw [hm, hd]; rfl) hguard

lemma orchestratorMain_trace (cfg : OrchestratorScriptConfig)
    (m : MaintEnv) (d : DevEnv) (f : FetchOutcome) :
    (orchestratorMain cfg ⟨m, d, f, false⟩).2 =
      createWindows cfg ++
        ((runMaintenanceScript cfg m).2 ++
          ((startDevScript cfg d).2 ++
            ((if jsTruthyStr (runMaintenanceScript cfg m).1.error ||
                  jsTruthyStr (startDevScript cfg d).1 then
                reportErrorToConvex cfg (runMaintenanceScript cfg m).1.error
                  (startDevScript cfg d).1 f
              else []) ++
              [OrchAction.processExit
                (if jsTruthyStr (runMaintenanceScript cfg m).1.error ||
                    jsTruthyStr (startDevScript cfg d).1 then 1 else 0)]))) := rfl

lemma orchestratorMain_code (cfg : OrchestratorScriptConfig)
    (m : MaintEnv) (d : DevEnv) (f : FetchOutcome) :
    (orchestratorMain cfg ⟨m, d, f, false⟩).1 =
      if jsTruthyStr (runMaintenanceScript cfg m).1.error ||
          jsTruthyStr (startDevScript cfg d).1 then 1 else 0 := rfl

lemma orchestratorMain_no_kill (cfg : OrchestratorScriptConfig) (env : OrchEnv) :
    OrchAction.killRemote ∉ (orchestratorMain cfg env).2 := by
  intro hx
  rcases env with ⟨m, d, f, cw⟩
  cases cw with
  | true => simp [orchestratorMain] at hx
  | false =>
    rw [orchestratorMain_trace] at hx
    rcases List.mem_append.mp hx with h | h
    · rcases createWindows_shape cfg _ h with h1 | h1 <;> simp at h1
    · rcases List.mem_append.mp h with h | h
      · rcases maint_trace_shape cfg m _ h with h1 | h1 <;> simp at h1
      · rcases List.mem_append.mp h with h | h
        · rcases dev_trace_shape cfg d _ h with h1 | h1 <;> simp at h1
        · rcases List.mem_append.mp h with h | h
          · split at h
            · rcases reportErrorToConvex_cases cfg
                (runMaintenanceScript cfg m).1.error (startDevScript cfg d).1 f with
                hr | ⟨hr, _⟩ <;> rw [hr] at h <;> simp at h
            · simp at h
          · simp at h

lemma createWindows_filter_posts (cfg : OrchestratorScriptConfig) :
    (createWindows cfg).filter isHttpPost = [] :=
  List.filter_eq_nil_iff.mpr (fun a ha => by
    rcases createWindows_shape cfg a ha with rfl | rfl <;> simp [isHttpPost])

lemma maint_filter_posts (cfg : OrchestratorScriptConfig) (m : MaintEnv) :
    ((runMaintenanceScript cfg m).2).filter isHttpPost = [] :=
  List.filter_eq_nil_iff.mpr (fun a ha => by
    rcases maint_trace_shape cfg m a ha with rfl | rfl <;> simp [isHttpPost])

lemma dev_filter_posts (cfg : OrchestratorScriptConfig) (d : DevEnv) :
    ((startDevScript cfg d).2).filter isHttpPost = [] :=
  List.filter_eq_nil_iff.mpr (fun a ha => by
    rcases dev_trace_shape cfg d a ha with rfl | rfl <;> simp [isHttpPost])

lemma dev_sendKeys_mem (cfg : OrchestratorScriptConfig) (d : DevEnv)
    (h1 : cfg.hasDevScript = true) (h2 : d.sendKeysThrows = none) :
    OrchAction.sendKeys cfg.devWindowName ∈ (startDevScript cfg d).2 := by
  unfold startDevScript
  rw [h1, h2]
  simp only [Bool.not_true, Bool.false_eq_true, if_false]
  split
  · simp
  · split
    · split <;> simp <;> split <;> simp
    · simp

lemma string_ne_of_data_ne {s t : String} (h : s.data ≠ t.data) : s ≠ t :=
  fun e => h (by rw [e])

lemma ne_of_front_23 {A B r1 r2 S T : List Char}
    (hA : 23 ≤ A.length) (hB : 23 ≤ B.length) (h : A.take 23 ≠ B.take 23) :
    A ++ (r1 ++ S) ≠ B ++ (r2 ++ T) := by
  intro e
  apply h
  have h1 : (A ++ (r1 ++ S)).take 23 = A.take 23 := List.take_append_of_le_length hA
  have h2 : (B ++ (r2 ++ T)).take 23 = B.take 23 := List.take_append_of_le_length hB
  rw [← h1, ← h2, e]

lemma ne_of_back_3 {A B r1 r2 S T : List Char}
    (hS : 3 ≤ S.length) (hT : 3 ≤ T.length)
    (h : S.reverse.take 3 ≠ T.reverse.take 3) :
    A ++ (r1 ++ S) ≠ B ++ (r2 ++ T) := by
  intro e
  apply h
  have hS2 : 3 ≤ S.reverse.length := by rw [List.length_reverse]; exact hS
  have hT2 : 3 ≤ T.reverse.length := by rw [List.length_reverse]; exact hT
  have h1 : (A ++ (r1 ++ S)).reverse.take 3 = S.reverse.take 3 := by
    rw [List.reverse_append A (r1 ++ S), List.reverse_append r1 S, List.append_assoc]
    exact List.take_append_of_le_length hS2
  have h2 : (B ++ (r2 ++ T)).reverse.take 3 = T.reverse.take 3 := by
    rw [List.reverse_append B (r2 ++ T), List.reverse_append r2 T, List.append_assoc]
    exact List.take_append_of_le_length hT2
  rw [← h1, ← h2, e]

lemma mid_eq_of_append_eq {A S : List Char} {r1 r2 : String}
    (e : A ++ (r1.data ++ S) = A ++ (r2.data ++ S)) : r1 = r2 :=
  String.ext (List.append_cancel_right (List.append_cancel_left e))

lemma orchestratorScriptPath_data (r : String) :
    (orchestratorScriptPath r).data =
      ("/var/tmp/cmux-scripts".data ++ "/orchestrator_".data) ++ (r.data ++ ".ts".data) := by
  simp [orchestratorScriptPath, CMUX_RUNTIME_DIR, String.data_append, List.append_assoc]

lemma maintenanceExitCodePath_data (r : String) :
    (maintenanceExitCodePath r).data =
      ("/var/tmp/cmux-scripts".data ++ "/maintenance_".data) ++ (r.data ++ ".exit-code".data) := by
  simp [maintenanceExitCodePath, CMUX_RUNTIME_DIR, String.data_append, List.append_assoc]

lemma maintenanceErrorLogPath_data (r : String) :
    (maintenanceErrorLogPath r).data =
      ("/var/tmp/cmux-scripts".data ++ "/maintenance_".data) ++ (r.data ++ ".log".data) := by
  simp [maintenanceErrorLogPath, CMUX_RUNTIME_DIR, String.data_append, List.append_assoc]

lemma devExitCodePath_data (r : String) :
    (devExitCodePath r).data =
      ("/var/tmp/cmux-scripts".data ++ "/dev_".data) ++ (r.data ++ ".exit-code".data) := by
  simp [devExitCodePath, CMUX_RUNTIME_DIR, String.data_append, List.append_assoc]

lemma devErrorLogPath_data (r : String) :
    (devErrorLogPath r).data =
      ("/var/tmp/cmux-scripts".data ++ "/dev_".data) ++ (r.data ++ ".log".data) := by
  simp [devErrorLogPath, CMUX_RUNTIME_DIR, String.data_append, List.append_assoc]

lemma orchestratorLogPath_data (r : String) :
    (orchestratorLogPath r).data =
      ("/var/tmp/cmux-scripts".data ++ "/orchestrator_".data) ++ (r.data ++ ".log".data) := by
  simp [orchestratorLogPath, CMUX_RUNTIME_DIR, String.data_append, List.append_assoc]

lemma hasScript_not_blank (o : Option String) :
    (jsTruthyStr o && !(jsTrim (o.getD (""))).data.isEmpty) = !isBlankScript o := by
  cases o with
  | none => decide
  | some s =>
    cases hd : s.data with
    | nil =>
      have hs : s = "" := String.ext (by rw [hd])
      subst hs
      decide
    | cons c t =>
      simp [jsTruthyStr, isBlankScript, Option.getD, hd]

/-! ## Claim theorems -/

/-- C1: for every configuration and every maintenance environment (covering
the ok, failed and timedOut outcomes of `runMaintenanceScript`), the
orchestrator main trace always contains the dev-stage trace immediately after
the maintenance-stage trace, and whenever a dev script exists and its
injection does not throw, the dev tmux injection itself occurs in the main
trace — `startDevScript` is invoked unconditionally once
`runMaintenanceScript` returns. -/
theorem c1_dev_stage_always_attempted (cfg : OrchestratorScriptConfig)
    (m : MaintEnv) (d : DevEnv) (f : FetchOutcome) :
    (∃ tail, (orchestratorMain cfg ⟨m, d, f, false⟩).2 =
      createWindows cfg ++
        ((runMaintenanceScript cfg m).2 ++ ((startDevScript cfg d).2 ++ tail)))
    ∧ (cfg.hasDevScript = true → d.sendKeysThrows = none →
        OrchAction.sendKeys cfg.devWindowName ∈
          (orchestratorMain cfg ⟨m, d, f, false⟩).2) := by
  constructor
  · exact ⟨_, orchestratorMain_trace cfg m d f⟩
  · intro h1 h2
    rw [orchestratorMain_trace]
    have hmem := dev_sendKeys_mem cfg d h1 h2
    simp only [List.mem_append]
    tauto

/-- C1 witness: with a maintenance script that times out (the exit-code file
never appears) and a dev script present, the dev tmux injection still occurs
in the orchestrator trace. -/
theorem c1_dev_stage_always_attempted_witness :
    OrchAction.sendKeys ("dev") ∈
      (orchestratorMain
        { workspaceRoot := "/root/workspace", runtimeDir := "/var/tmp/cmux-scripts",
          maintenanceScriptPath := "/var/tmp/cmux-scripts/maintenance.sh",
          devScriptPath := "/var/tmp/cmux-scripts/dev.sh",
          maintenanceWindowName := "maintenance", devWindowName := "dev",
          maintenanceExitCodePath := "/var/tmp/cmux-scripts/maintenance_r1.exit-code",
          maintenanceErrorLogPath := "/var/tmp/cmux-scripts/maintenance_r1.log",
          devExitCodePath := "/var/tmp/cmux-scripts/dev_r1.exit-code",
          devErrorLogPath := "/var/tmp/cmux-scripts/dev_r1.log",
          hasMaintenanceScript := true, hasDevScript := true,
          convexUrl := "https://backend.example", taskRunJwt := "jwt0" }
        ⟨{ sendKeysThrows := none, existsAt := fun _ => false,
           exitFileContent := "", log := LogRead.absent },
         { sendKeysThrows := none, windowListed := true, earlyExitFilePresent := false,
           exitFileContent := "", log := LogRead.absent },
         FetchOutcome.networkError, false⟩).2 :=
  (c1_dev_stage_always_attempted _ _ _ _).2 rfl rfl

/-- C2: when the maintenance exit-code file does not appear at any of the 600
one-second poll attempts, `runMaintenanceScript` returns exit code 124 with
the error "Maintenance script timed out after 10 minutes" having issued only
the tmux injection (in particular no kill of the remote process — no
`killRemote` action ever appears in the whole orchestrator trace), and the
orchestrator process exits with code 1. -/
theorem c2_maintenance_timeout (cfg : OrchestratorScriptConfig)
    (m : MaintEnv) (d : DevEnv) (f : FetchOutcome)
    (h1 : cfg.hasMaintenanceScript = true) (h2 : m.sendKeysThrows = none)
    (h3 : ∀ k, k < 600 → m.existsAt k = false) :
    runMaintenanceScript cfg m =
      ({ exitCode := 124, error := some ("Maintenance script timed out after 10 minutes") },
       [OrchAction.sendKeys cfg.maintenanceWindowName])
    ∧ OrchAction.killRemote ∉ (orchestratorMain cfg ⟨m, d, f, false⟩).2
    ∧ (orchestratorMain cfg ⟨m, d, f, false⟩).1 = 1
    ∧ OrchAction.processExit 1 ∈ (orchestratorMain cfg ⟨m, d, f, false⟩).2 := by
  have hge : 600 ≤ pollFrom m.existsAt 0 600 := by
    have := pollFrom_all_false m.existsAt 600 0 (fun k _ hk2 => h3 k (by omega))
    omega
  have hm := runMaintenanceScript_timeout cfg m h1 h2 hge
  have htruthy : jsTruthyStr (runMaintenanceScript cfg m).1.error = true := by
    rw [hm]
    show jsTruthyStr (some ("Maintenance script timed out after 10 minutes")) = true
    decide
  refine ⟨hm, orchestratorMain_no_kill cfg _, ?_, ?_⟩
  · rw [orchestratorMain_code, htruthy]
    simp
  · rw [orchestratorMain_trace]
    simp [htruthy]

/-- C2 witness: a concrete configuration whose maintenance exit-code file
never appears yields the 124/timeout result and overall exit code 1. -/
theorem c2_maintenance_timeout_witness :
    runMaintenanceScript
        { workspaceRoot := "/root/workspace", runtimeDir := "/var/tmp/cmux-scripts",
          maintenanceScriptPath := "/var/tmp/cmux-scripts/maintenance.sh",
          devScriptPath := "/var/tmp/cmux-scripts/dev.sh",
          maintenanceWindowName := "maintenance", devWindowName := "dev",
          maintenanceExitCodePath := "/var/tmp/cmux-scripts/maintenance_r1.exit-code",
          maintenanceErrorLogPath := "/var/tmp/cmux-scripts/maintenance_r1.log",
          devExitCodePath := "/var/tmp/cmux-scripts/dev_r1.exit-code",
          devErrorLogPath := "/var/tmp/cmux-scripts/dev_r1.log",
          hasMaintenanceScript := true, hasDevScript := false,
          convexUrl := "https://backend.example", taskRunJwt := "jwt0" }
        { sendKeysThrows := none, existsAt := fun _ => false,
          exitFileContent := "", log := LogRead.absent } =
      ({ exitCode := 124, error := some ("Maintenance script timed out after 10 minutes") },
       [OrchAction.sendKeys ("maintenance")])
    ∧ (orchestratorMain
        { workspaceRoot := "/root/workspace", runtimeDir := "/var/tmp/cmux-scripts",
          maintenanceScriptPath := "/var/tmp/cmux-scripts/maintenance.sh",
          devScriptPath := "/var/tmp/cmux-scripts/dev.sh",
          maintenanceWindowName := "maintenance", devWindowName := "dev",
          maintenanceExitCodePath := "/var/tmp/cmux-scripts/maintenance_r1.exit-code",
          maintenanceErrorLogPath := "/var/tmp/cmux-scripts/maintenance_r1.log",
          devExitCodePath := "/var/tmp/cmux-scripts/dev_r1.exit-code",
          devErrorLogPath := "/var/tmp/cmux-scripts/dev_r1.log",
          hasMaintenanceScript := true, hasDevScript := false,
          convexUrl := "https://backend.example", taskRunJwt := "jwt0" }
        ⟨{ sendKeysThrows := none, existsAt := fun _ => false,
           exitFileContent := "", log := LogRead.absent },
         { sendKeysThrows := none, windowListed := true, earlyExitFilePresent := false,
           exitFileContent := "", log := LogRead.absent },
         FetchOutcome.networkError, false⟩).1 = 1 := by
  have h := c2_maintenance_timeout
    { workspaceRoot := "/root/workspace", runtimeDir := "/var/tmp/cmux-scripts",
      maintenanceScriptPath := "/var/tmp/cmux-scripts/maintenance.sh",
      devScriptPath := "/var/tmp/cmux-scripts/dev.sh",
      maintenanceWindowName := "maintenance", devWindowName := "dev",
      maintenanceExitCodePath := "/var/tmp/cmux-scripts/maintenance_r1.exit-code",
      maintenanceErrorLogPath := "/var/tmp/cmux-scripts/maintenance_r1.log",
      devExitCodePath := "/var/tmp/cmux-scripts/dev_r1.exit-code",
      devErrorLogPath := "/var/tmp/cmux-scripts/dev_r1.log",
      hasMaintenanceScript := true, hasDevScript := false,
      convexUrl := "https://backend.example", taskRunJwt := "jwt0" }
    { sendKeysThrows := none, existsAt := fun _ => false,
      exitFileContent := "", log := LogRead.absent }
    { sendKeysThrows := none, windowListed := true, earlyExitFilePresent := false,
      exitFileContent := "", log := LogRead.absent }
    FetchOutcome.networkError rfl rfl (fun k _ => rfl)
  exact ⟨h.1, h.2.2.1⟩

/-- C3: when both the maintenance and the dev script text are absent, empty,
or whitespace-only, `runMaintenanceAndDevScripts` returns normally with an
empty effect trace: no remote command is executed, hence no script or
orchestrator file is written, no tmux window is created, and no HTTP call is
made. -/
theorem c3_blank_scripts_no_effects (ms ds : Option String) (rid : String)
    (exec : ExecBehavior)
    (h1 : isBlankScript ms = true) (h2 : isBlankScript ds = true) :
    runMaintenanceAndDevScripts ms ds rid exec = (Except.ok (), []) := by
  unfold runMaintenanceAndDevScripts
  unfold isBlankScript at h1 h2
  rw [h1, h2]
  simp

/-- C3 witness: a whitespace-only maintenance text (mixing spaces, a tab and
a no-break space) and an absent dev text produce no effect even when the
remote exec would have thrown. -/
theorem c3_blank_scripts_no_effects_witness :
    runMaintenanceAndDevScripts (some (" \t\u00A0 ")) none ("r1")
      (ExecBehavior.throwsMsg ("boom")) = (Except.ok (), []) :=
  c3_blank_scripts_no_effects (some (" \t\u00A0 ")) none ("r1")
    (ExecBehavior.throwsMsg ("boom")) (by decide) (by decide)

/-- C4 counterexample: the claim that all generated file paths of two
distinct runs are pairwise distinct is false, because the maintenance script
path produced by `allocateScriptIdentifiers` is the same fixed constant for
every run: runs "a" and "b" share it. -/
theorem c4_shared_script_path_counterexample :
    ¬ (∀ r1 r2 : String, r1 ≠ r2 →
        ∀ p1 ∈ generatedPaths r1, ∀ p2 ∈ generatedPaths r2, p1 ≠ p2) := by
  intro h
  exact h ("a") ("b") (by decide)
    allocateScriptIdentifiers.maintenance.scriptPath (by decide)
    allocateScriptIdentifiers.maintenance.scriptPath (by decide) rfl

/-- C4 amended: the run identifier scopes the orchestrator script file, the
exit-code files and the log files — for two distinct run identifiers these
six paths are pairwise distinct across the runs — while the maintenance and
dev script file paths are fixed constants shared by every run. -/
theorem c4_run_scoped_paths_distinct (r1 r2 : String) (hne : r1 ≠ r2) :
    ∀ p1 ∈ runScopedPaths r1, ∀ p2 ∈ runScopedPaths r2, p1 ≠ p2 := by
  intro p1 hp1 p2 hp2
  simp only [runScopedPaths, List.mem_cons, List.not_mem_nil, or_false] at hp1 hp2
  rcases hp1 with rfl | rfl | rfl | rfl | rfl | rfl <;>
    rcases hp2 with rfl | rfl | rfl | rfl | rfl | rfl <;>
    (apply string_ne_of_data_ne
     simp only [orchestratorScriptPath_data, maintenanceExitCodePath_data,
       maintenanceErrorLogPath_data, devExitCodePath_data, devErrorLogPath_data,
       orchestratorLogPath_data]
     first
       | exact ne_of_front_23 (by decide) (by decide) (by decide)
       | exact ne_of_back_3 (by decide) (by decide) (by decide)
       | exact fun e => hne (mid_eq_of_append_eq e))

/-- C4 amended witness: for the concrete distinct run ids "a" and "b" the two
orchestrator script paths differ. -/
theorem c4_run_scoped_paths_distinct_witness :
    orchestratorScriptPath ("a") ≠ orchestratorScriptPath ("b") :=
  c4_run_scoped_paths_distinct ("a") ("b") (by decide)
    (orchestratorScriptPath ("a")) (by decide)
    (orchestratorScriptPath ("b")) (by decide)

/-- C5: in every orchestrator run the control-plane report is posted at most
once; any POST in the trace implies at least one stage error was set, carries
the bearer Authorization header and the report URL, and its body is exactly
the set error fields; and the fetch outcome (network failure, non-2xx, 2xx)
changes neither the terminal exit code nor the number of POSTs — reporting
failures are logged only, never retried, and never fail the run. -/
theorem c5_error_report_best_effort (cfg : OrchestratorScriptConfig)
    (m : MaintEnv) (d : DevEnv) (f : FetchOutcome) :
    postCount (orchestratorMain cfg ⟨m, d, f, false⟩).2 ≤ 1
    ∧ (∀ u a b, OrchAction.httpPost u a b ∈ (orchestratorMain cfg ⟨m, d, f, false⟩).2 →
        (jsTruthyStr (runMaintenanceScript cfg m).1.error = true ∨
         jsTruthyStr (startDevScript cfg d).1 = true)
        ∧ a = ("Bearer ") ++ cfg.taskRunJwt
        ∧ u = cfg.convexUrl ++ "/http/api/task-runs/report-environment-error"
        ∧ b = reportBody (runMaintenanceScript cfg m).1.error (startDevScript cfg d).1)
    ∧ (∀ f2 : FetchOutcome,
        (orchestratorMain cfg ⟨m, d, f2, false⟩).1 = (orchestratorMain cfg ⟨m, d, f, false⟩).1
        ∧ postCount (orchestratorMain cfg ⟨m, d, f2, false⟩).2 =
            postCount (orchestratorMain cfg ⟨m, d, f, false⟩).2) := by
  refine ⟨?_, ?_, fun f2 => ⟨rfl, rfl⟩⟩
  · unfold postCount
    rw [orchestratorMain_trace]
    simp only [List.filter_append, createWindows_filter_posts, maint_filter_posts,
      dev_filter_posts, List.nil_append]
    have hexit : ∀ c : Int, List.filter isHttpPost [OrchAction.processExit c] = [] := by
      intro c
      simp [isHttpPost]
    rw [hexit, List.append_nil]
    split
    · rcases reportErrorToConvex_cases cfg (runMaintenanceScript cfg m).1.error
        (startDevScript cfg d).1 f with hr | ⟨hr, _⟩ <;> rw [hr] <;> simp [isHttpPost]
    · simp
  · intro u a b hmem
    rw [orchestratorMain_trace] at hmem
    rcases List.mem_append.mp hmem with h | h
    · rcases createWindows_shape cfg _ h with h1 | h1 <;> simp at h1
    · rcases List.mem_append.mp h with h | h
      · rcases maint_trace_shape cfg m _ h with h1 | h1 <;> simp at h1
      · rcases List.mem_append.mp h with h | h
        · rcases dev_trace_shape cfg d _ h with h1 | h1 <;> simp at h1
        · rcases List.mem_append.mp h with h | h
          · split at h
            · rcases reportErrorToConvex_cases cfg (runMaintenanceScript cfg m).1.error
                (startDevScript cfg d).1 f with hr | ⟨hr, htr⟩
              · rw [hr] at h
                simp at h
              · rw [hr] at h
                simp only [List.mem_singleton, OrchAction.httpPost.injEq] at h
                obtain ⟨hu, ha, hb⟩ := h
                exact ⟨htr, ha, hu, hb⟩
            · simp at h
          · simp at h

/-- C5 witness: a concrete failing run posts at most one report. -/
theorem c5_error_report_best_effort_witness :
    postCount (orchestratorMain
      { workspaceRoot := "/root/workspace", runtimeDir := "/var/tmp/cmux-scripts",
        maintenanceScriptPath := "/var/tmp/cmux-scripts/maintenance.sh",
        devScriptPath := "/var/tmp/cmux-scripts/dev.sh",
        maintenanceWindowName := "maintenance", devWindowName := "dev",
        maintenanceExitCodePath := "/var/tmp/cmux-scripts/maintenance_r1.exit-code",
        maintenanceErrorLogPath := "/var/tmp/cmux-scripts/maintenance_r1.log",
        devExitCodePath := "/var/tmp/cmux-scripts/dev_r1.exit-code",
        devErrorLogPath := "/var/tmp/cmux-scripts/dev_r1.log",
        hasMaintenanceScript := true, hasDevScript := true,
        convexUrl := "https://backend.example", taskRunJwt := "jwt0" }
      ⟨{ sendKeysThrows := none, existsAt := fun _ => true,
         exitFileContent := "3", log := LogRead.absent },
       { sendKeysThrows := none, windowListed := true, earlyExitFilePresent := false,
         exitFileContent := "", log := LogRead.absent },
       FetchOutcome.ok 200, false⟩).2 ≤ 1 :=
  (c5_error_report_best_effort _ _ _ _).1

/-- C6: once the maintenance exit-code file has appeared within the bounded
wait, its trimmed content is parsed as a base-10 integer: unparsable content
yields the failed result (exit code 1, error "Maintenance script exit code
missing or invalid") directly with no retry; parsed value 0 yields the ok
result with no error; a non-zero parsed value yields a failed result whose
error is the last-100-lines log tail, degrading to the generic
"Maintenance script failed with exit code n" message whenever the log is
missing, unreadable, or empty — the read failure is never propagated. -/
theorem c6_exit_code_parsing (cfg : OrchestratorScriptConfig) (m : MaintEnv)
    (h1 : cfg.hasMaintenanceScript = true) (h2 : m.sendKeysThrows = none)
    (h3 : ∃ k, k < 600 ∧ m.existsAt k = true) :
    (jsParseInt (jsTrim m.exitFileContent) = none →
      (runMaintenanceScript cfg m).1 =
        { exitCode := 1, error := some ("Maintenance script exit code missing or invalid") })
    ∧ (jsParseInt (jsTrim m.exitFileContent) = some 0 →
      (runMaintenanceScript cfg m).1 = { exitCode := 0, error := none })
    ∧ (∀ n : Int, jsParseInt (jsTrim m.exitFileContent) = some n → n ≠ 0 →
      (runMaintenanceScript cfg m).1 =
        { exitCode := n, error := some (maintFailureMessage n m.log) })
    ∧ (∀ n : Int,
      (m.log = LogRead.absent ∨ m.log = LogRead.readFails ∨ logTailDetails m.log = "") →
      maintFailureMessage n m.log =
        ("Maintenance script failed with exit code ") ++ toString n) := by
  have hlt : pollFrom m.existsAt 0 600 < 600 := by
    obtain ⟨k, hk1, hk2⟩ := h3
    have := pollFrom_finds m.existsAt 600 0 ⟨k, Nat.zero_le k, by omega, hk2⟩
    omega
  refine ⟨?_, ?_, ?_, ?_⟩
  · intro hp
    rw [runMaintenanceScript_invalid cfg m h1 h2 hlt hp]
  · intro hp
    rw [runMaintenanceScript_zero cfg m h1 h2 hlt hp]
  · intro n hp hn
    rw [runMaintenanceScript_nonzero cfg m n h1 h2 hlt hp hn]
  · intro n hlog
    have hempty : (("" : String)).data.isEmpty = true := by decide
    rcases hlog with h | h | h
    · simp [maintFailureMessage, logTailDetails, h]
    · simp [maintFailureMessage, logTailDetails, h]
    · simp [maintFailureMessage, h, hempty]

/-- C6 witness: a run whose exit-code file appears immediately with content
"0" produces the ok result with no error. -/
theorem c6_exit_code_parsing_witness :
    (runMaintenanceScript
      { workspaceRoot := "/root/workspace", runtimeDir := "/var/tmp/cmux-scripts",
        maintenanceScriptPath := "/var/tmp/cmux-scripts/maintenance.sh",
        devScriptPath := "/var/tmp/cmux-scripts/dev.sh",
        maintenanceWindowName := "maintenance", devWindowName := "dev",
        maintenanceExitCodePath := "/var/tmp/cmux-scripts/maintenance_r1.exit-code",
        maintenanceErrorLogPath := "/var/tmp/cmux-scripts/maintenance_r1.log",
        devExitCodePath := "/var/tmp/cmux-scripts/dev_r1.exit-code",
        devErrorLogPath := "/var/tmp/cmux-scripts/dev_r1.log",
        hasMaintenanceScript := true, hasDevScript := false,
        convexUrl := "https://backend.example", taskRunJwt := "jwt0" }
      { sendKeysThrows := none, existsAt := fun _ => true,
        exitFileContent := "\u00A00", log := LogRead.absent }).1 =
      { exitCode := 0, error := none } :=
  (c6_exit_code_parsing _ _ rfl rfl ⟨0, by decide, rfl⟩).2.1 (by decide)

/-- C7: when the serve-web socket artifact does not appear within the
15-second deadline and the spawned child is still alive, the launch attempt
kills the child, removes the partial socket file, leaves the cached base-URL
and socket-path state null, and reports failure by returning `none` — the
`waitForSocket` throw is caught inside `ensureVSCodeServeWeb`, which is total
in this model, so no exception reaches the caller. -/
theorem c7_socket_timeout_cleanup (cache : ServeWebCache) (exe sp : String) :
    (ensureVSCodeServeWeb
        { executable := some exe, isWin32 := false, socketPath := sp,
          socketAppears := false, childAliveAtFailure := true } cache).1 = none
    ∧ (ensureVSCodeServeWeb
        { executable := some exe, isWin32 := false, socketPath := sp,
          socketAppears := false, childAliveAtFailure := true } cache).2.1 =
        { currentServeWebBaseUrl := none, currentServeWebSocketPath := none }
    ∧ SupAction.killChild ∈ (ensureVSCodeServeWeb
        { executable := some exe, isWin32 := false, socketPath := sp,
          socketAppears := false, childAliveAtFailure := true } cache).2.2
    ∧ SupAction.unlinkSocket sp ∈ (ensureVSCodeServeWeb
        { executable := some exe, isWin32 := false, socketPath := sp,
          socketAppears := false, childAliveAtFailure := true } cache).2.2 := by
  refine ⟨rfl, rfl, ?_, ?_⟩ <;> simp [ensureVSCodeServeWeb]

/-- C8: `stopVSCodeServeWeb` never raises (it is total in this model), is a
no-op on a null handle, clears the cached state as its first action, kills
the child exactly when the child has not already been killed, exited, or
been signalled, and is idempotent: a second call on the same handle leaves
the state of the first call unchanged and performs no further kill. -/
theorem c8_stop_idempotent (s : SupervisorState) (h : VSCodeServeWebHandle) :
    stopVSCodeServeWeb none s = (s, [])
    ∧ (stopVSCodeServeWeb (some h) (stopVSCodeServeWeb (some h) s).1).1 =
        (stopVSCodeServeWeb (some h) s).1
    ∧ SupAction.killChild ∉ (stopVSCodeServeWeb (some h) (stopVSCodeServeWeb (some h) s).1).2
    ∧ (stopVSCodeServeWeb (some h) s).1.cache =
        { currentServeWebBaseUrl := none, currentServeWebSocketPath := none }
    ∧ (stopVSCodeServeWeb (some h) s).2.head? = some SupAction.clearCache
    ∧ (SupAction.killChild ∈ (stopVSCodeServeWeb (some h) s).2 ↔
        (s.child.killed || s.child.exitCode.isSome || s.child.signalCode.isSome) = false) := by
  by_cases hc : (s.child.killed || s.child.exitCode.isSome || s.child.signalCode.isSome) = true
  · refine ⟨rfl, ?_, ?_, ?_, ?_, ?_⟩ <;> simp [stopVSCodeServeWeb, hc]
  · have hc2 : (s.child.killed || s.child.exitCode.isSome || s.child.signalCode.isSome) = false :=
      Bool.eq_false_iff.mpr hc
    refine ⟨rfl, ?_, ?_, ?_, ?_, ?_⟩ <;> simp [stopVSCodeServeWeb, hc2]

/-- C8 witness: stopping with a null handle leaves a concrete state
untouched with an empty trace. -/
theorem c8_stop_idempotent_witness :
    stopVSCodeServeWeb none
      { cache := { currentServeWebBaseUrl := none, currentServeWebSocketPath := none },
        socketFileExists := true,
        child := { killed := false, exitCode := none, signalCode := none } } =
      ({ cache := { currentServeWebBaseUrl := none, currentServeWebSocketPath := none },
         socketFileExists := true,
         child := { killed := false, exitCode := none, signalCode := none } }, []) :=
  (c8_stop_idempotent
    { cache := { currentServeWebBaseUrl := none, currentServeWebSocketPath := none },
      socketFileExists := true,
      child := { killed := false, exitCode := none, signalCode := none } }
    { executable := "/usr/bin/code", socketPath := "/tmp/cmux-vscode-7-99.sock" }).1

/-- C9 counterexample: the claim that the error handler clears the cached
base-URL and socket-path state is false — the source error handler only logs,
so after it fires on a populated cache both accessors still return the stale
values. -/
theorem c9_error_handler_counterexample :
    getVSCodeServeWebBaseUrl (serveWebErrorHandler
      { currentServeWebBaseUrl := some ("http://cmux-vscode.local"),
        currentServeWebSocketPath := some ("/tmp/cmux-vscode-7-99.sock") }) =
      some ("http://cmux-vscode.local")
    ∧ getVSCodeServeWebSocketPath (serveWebErrorHandler
      { currentServeWebBaseUrl := some ("http://cmux-vscode.local"),
        currentServeWebSocketPath := some ("/tmp/cmux-vscode-7-99.sock") }) ≠ none :=
  ⟨rfl, by decide⟩

/-- C9 amended: only the exit handler clears the cached state — it always
clears the socket path and clears the base URL whenever one is cached (or it
was already clear) — while the error handler only logs and leaves the cached
state entirely unchanged. -/
theorem c9_exit_handler_clears (c : ServeWebCache) :
    (jsTruthyStr c.currentServeWebBaseUrl = true →
      serveWebExitHandler c =
        { currentServeWebBaseUrl := none, currentServeWebSocketPath := none })
    ∧ (c.currentServeWebBaseUrl = none →
      serveWebExitHandler c =
        { currentServeWebBaseUrl := none, currentServeWebSocketPath := none })
    ∧ serveWebErrorHandler c = c := by
  refine ⟨?_, ?_, rfl⟩
  · intro h
    simp [serveWebExitHandler, h]
  · intro h
    simp [serveWebExitHandler, h, jsTruthyStr]

/-- C9 amended witness: the exit handler clears a concrete populated cache. -/
theorem c9_exit_handler_clears_witness :
    serveWebExitHandler
      { currentServeWebBaseUrl := some ("http://cmux-vscode.local"),
        currentServeWebSocketPath := some ("/tmp/cmux-vscode-7-99.sock") } =
      { currentServeWebBaseUrl := none, currentServeWebSocketPath := none } :=
  (c9_exit_handler_clears
    { currentServeWebBaseUrl := some ("http://cmux-vscode.local"),
      currentServeWebSocketPath := some ("/tmp/cmux-vscode-7-99.sock") }).1 (by decide)

/-- C10: when at least one script text is real, the launcher with a returned
exec result succeeds exactly when the remote setup command exited zero and
its trimmed stdout contains the confirmation marker; in every other case it
throws, so a caller observes an exception exactly when the background
orchestrator was not confirmed to have started; and exactly one remote
command is issued. -/
theorem c10_launch_failure_throws (ms ds : Option String) (rid : String)
    (r : ExecResult)
    (hs : isBlankScript ms = false ∨ isBlankScript ds = false) :
    ((runMaintenanceAndDevScripts ms ds rid (ExecBehavior.result r)).1 = Except.ok () ↔
      (r.exit_code = 0 ∧
        jsIncludes (jsTrim (r.stdout.getD (""))) orchestratorStartMarker = true))
    ∧ (runMaintenanceAndDevScripts ms ds rid (ExecBehavior.result r)).2 =
        [LaunchAction.execRemote rid] := by
  have hskip : (!(jsTruthyStr ms && !(jsTrim (ms.getD (""))).data.isEmpty)
      && !(jsTruthyStr ds && !(jsTrim (ds.getD (""))).data.isEmpty)) = false := by
    rw [hasScript_not_blank ms, hasScript_not_blank ds]
    rcases hs with h | h <;> simp [h]
  unfold runMaintenanceAndDevScripts
  rw [hskip]
  by_cases h0 : r.exit_code = 0
  · by_cases hm : jsIncludes (jsTrim (r.stdout.getD (""))) orchestratorStartMarker = true
    · simp [h0, hm]
    · rw [Bool.not_eq_true] at hm
      simp [h0, hm]
  · simp [h0]

/-- C10 witness: a present maintenance script with a clean exec result whose
stdout carries the confirmation marker makes the launcher return normally. -/
theorem c10_launch_failure_throws_witness :
    (runMaintenanceAndDevScripts (some ("echo hi")) none ("r1")
      (ExecBehavior.result
        { exit_code := 0,
          stdout := some ("[ORCHESTRATOR] Started successfully in background (PID: 42)"),
          stderr := none })).1 = Except.ok () :=
  ((c10_launch_failure_throws (some ("echo hi")) none ("r1")
      { exit_code := 0,
        stdout := some ("[ORCHESTRATOR] Started successfully in background (PID: 42)"),
        stderr := none }
      (Or.inl (by decide))).1).mpr ⟨rfl, by decide⟩
